import Mathlib

/-!
Shallow embedding of the appointment scheduling and conflict-resolution
engine of the backend (services/appointment_service.py,
services/appointment_updater.py, routes/appointment_routes.py,
ws/connection_manager.py), with theorems checking the natural-language
specification against it.

Modelling conventions:
* Python `datetime.time` values become `Tod` (hour/minute/second/microsecond
  as naturals); Python compares times by their position within the day, which
  we realise as comparison of the microsecond count since midnight.
* Dates become day ordinals (`Nat`); `datetime.now()` timestamps become an
  abstract `Nat` tick supplied by the caller.
* SQLAlchemy tables become Lean lists inside a `DB` structure; `query(...)
  .first()` becomes `List.find?`; committed mutation becomes functional
  update of the list.
* Python exceptions become `Except` errors; a `try/except` block becomes a
  `match` on the `Except` value.
* The WebSocket transport is an oracle `fails : Nat → Bool` telling which
  connection's `send_text` raises; delivery bookkeeping returns the list of
  connection ids that actually received the message.
-/

/-- Time of day, mirroring Python `datetime.time` (hour, minute, second,
microsecond). -/
structure Tod where
  hour : Nat
  minute : Nat
  second : Nat
  microsecond : Nat
deriving DecidableEq, Repr

/-- Microseconds since midnight; Python orders `time` values by this count. -/
def Tod.toMicros (t : Tod) : Nat :=
  ((t.hour * 60 + t.minute) * 60 + t.second) * 1000000 + t.microsecond

/-- Strict order on times of day (Python `<` on `datetime.time`). -/
def Tod.lt (a b : Tod) : Bool :=
  a.toMicros < b.toMicros

/-- `t.replace(second=0, microsecond=0)`: truncation to whole minutes. -/
def Tod.trunc (t : Tod) : Tod :=
  ⟨t.hour, t.minute, 0, 0⟩

/-- A time already normalized to whole minutes. -/
def Tod.aligned (t : Tod) : Prop :=
  t.second = 0 ∧ t.microsecond = 0

instance (t : Tod) : Decidable t.aligned := by
  unfold Tod.aligned; infer_instance

/-- `datetime.combine(date, start) + timedelta(hours=1)` followed by
`.time()`: adding one hour wraps around midnight. -/
def Tod.addHour (t : Tod) : Tod :=
  ⟨(t.hour + 1) % 24, t.minute, t.second, t.microsecond⟩

/-- The half-open interval overlap test used throughout the service:
`s1 < e2 and s2 < e1`. -/
def overlaps (s1 e1 s2 e2 : Tod) : Bool :=
  s1.lt e2 && s2.lt e1

/-- `appointments` table row. -/
structure Appointment where
  id : Nat
  doctor_id : Nat
  patient_id : Nat
  appointment_date : Nat
  start_time : Tod
  end_time : Tod
  status : String
  reason : Option String
  notes : Option String
  is_updated : Bool
  update_date : Option Nat
deriving DecidableEq, Repr

/-- `doctor_availability` table row: a primary interval plus two optional
ones, with the record-wide `is_available` flag. -/
structure DoctorAvailability where
  doctor_id : Nat
  availability_date : Nat
  is_available : Bool
  start_time : Option Tod
  end_time : Option Tod
  start_time2 : Option Tod
  end_time2 : Option Tod
  start_time3 : Option Tod
  end_time3 : Option Tod
deriving DecidableEq, Repr

/-- `doctor_profiles` row joined with its `users` row (the fields the
engine touches). -/
structure DoctorRec where
  id : Nat
  user_id : Nat
  first_name : String
  last_name : String
deriving DecidableEq, Repr

/-- `patient_profiles` row joined with its `users` row (the fields the
engine touches). -/
structure PatientRec where
  id : Nat
  user_id : Nat
  first_name : String
  last_name : String
deriving DecidableEq, Repr

/-- The database state visible to the scheduling engine. -/
structure DB where
  appointments : List Appointment
  availabilities : List DoctorAvailability
  doctors : List DoctorRec
  patients : List PatientRec
  nextId : Nat
deriving Repr

/-- The conflict query of `create_appointment`:
`doctor_id ==, appointment_date ==, start_time < end, end_time > start`. -/
def findConflict (apts : List Appointment) (doc d : Nat) (st et : Tod) :
    Option Appointment :=
  apts.find? fun a =>
    a.doctor_id == doc && a.appointment_date == d &&
    a.start_time.lt et && st.lt a.end_time

/-- The conflict query of `update_appointment_details`, which additionally
excludes the appointment being edited. -/
def findConflictExcl (apts : List Appointment) (selfId doc d : Nat)
    (st et : Tod) : Option Appointment :=
  apts.find? fun a =>
    a.id != selfId && a.doctor_id == doc && a.appointment_date == d &&
    a.start_time.lt et && st.lt a.end_time

/-- `query(DoctorAvailability).filter(doctor_id ==, availability_date ==)
.first()`. -/
def findAvailability (avs : List DoctorAvailability) (doc d : Nat) :
    Option DoctorAvailability :=
  avs.find? fun av => av.doctor_id == doc && av.availability_date == d

/-- One guarded unavailability check:
`if not is_available and s and e: if overlaps(req, s.replace(...),
e.replace(...))`.  A Python `time` value is always truthy, so the `and`
chain only tests the nullable columns for `None`. -/
def slotBlocks (isAvail : Bool) (os oe : Option Tod) (st et : Tod) : Bool :=
  match isAvail, os, oe with
  | false, some s, some e => overlaps st et s.trunc e.trunc
  | _, _, _ => false

/-- Errors raised by the appointment service (each constructor stands for
one distinct `raise Exception(...)` site). -/
inductive CreateError
  /-- "Appointment time overlaps with an existing appointment on the same
  date." -/
  | conflict
  /-- "Requested time collides with doctor's unavailability (primary
  slot)." -/
  | unavailPrimary
  /-- secondary slot collision -/
  | unavailSecondary
  /-- tertiary slot collision -/
  | unavailTertiary
  /-- "Patient with given full name not found." -/
  | patientNotFound
  /-- `AttributeError` escaping the post-commit profile lookups -/
  | attrError
deriving DecidableEq, Repr

/-- The three sequential unavailability checks, first failure wins. -/
def availabilityError (av : DoctorAvailability) (st et : Tod) :
    Option CreateError :=
  if slotBlocks av.is_available av.start_time av.end_time st et then
    some .unavailPrimary
  else if slotBlocks av.is_available av.start_time2 av.end_time2 st et then
    some .unavailSecondary
  else if slotBlocks av.is_available av.start_time3 av.end_time3 st et then
    some .unavailTertiary
  else
    none

/-- Availability gate of `create_appointment`: only consulted when a record
exists for the doctor and date. -/
def availabilityGate (db : DB) (doc d : Nat) (st et : Tod) :
    Option CreateError :=
  match findAvailability db.availabilities doc d with
  | some av => availabilityError av st et
  | none => none

/-- `query(DoctorProfile).filter(DoctorProfile.id == doctor_id).first()`. -/
def lookupDoctor (db : DB) (profileId : Nat) : Option DoctorRec :=
  db.doctors.find? fun r => r.id == profileId

/-- `query(PatientProfile).filter(PatientProfile.id == patient_id)
.first()`. -/
def lookupPatient (db : DB) (profileId : Nat) : Option PatientRec :=
  db.patients.find? fun r => r.id == profileId

/-- `query(PatientProfile).join(User).filter(concat(first_name, ' ',
last_name) == full_name).first()`: exact, case-sensitive, first match. -/
def findPatientByFullname (patients : List PatientRec) (fullName : String) :
    Option PatientRec :=
  patients.find? fun p => p.first_name ++ " " ++ p.last_name == fullName

/-- Live WebSocket registry of `ConnectionManager`: `active_connections`
maps a user id to its open connection ids; `admin_connections` is the set
of user ids registered with the admin role. -/
structure ConnState where
  active : List (String × List Nat)
  admins : List String

/-- Active connections of one user, `none` when the user id is absent from
`active_connections`. -/
def userConns (cs : ConnState) (uid : String) : Option (List Nat) :=
  (cs.active.find? fun p => p.1 == uid).map fun p => p.2

/-- `connection.send_text(...)`: raises exactly when the transport oracle
says this connection fails. -/
def trySendText (fails : Nat → Bool) (c : Nat) : Except String Unit :=
  if fails c then .error "delivery failed" else .ok ()

/-- `send_personal_message`: loops over the user's connections, each send
wrapped in its own `try/except` that logs and continues.  Returns the
connections that received the message. -/
def send_personal_message (cs : ConnState) (fails : Nat → Bool)
    (uid : String) : List Nat :=
  match userConns cs uid with
  | some conns =>
      conns.foldr
        (fun c acc =>
          match trySendText fails c with
          | .ok _ => c :: acc
          | .error _ => acc)
        []
  | none => []

/-- `broadcast_to_admins`: `send_personal_message` to each registered
admin id. -/
def broadcast_to_admins (cs : ConnState) (fails : Nat → Bool) : List Nat :=
  (cs.admins.map (send_personal_message cs fails)).flatten

/-- Body of the per-user loop in `send_appointment_notification`: guarded
by `if user_id in self.active_connections`. -/
def notifyUser (cs : ConnState) (fails : Nat → Bool) (uid : String) :
    List Nat :=
  if (userConns cs uid).isSome then send_personal_message cs fails uid
  else []

/-- `ConnectionManager.send_appointment_notification`: per-user sends (each
inside `try/except`), then an admin broadcast inside `try/except`, the
whole body inside a final blanket `try/except` — so every path returns
normally, which the `.ok` result records.  The payload is the list of
connection ids reached. -/
def send_appointment_notification (cs : ConnState) (fails : Nat → Bool)
    (affected : List String) : Except String (List Nat) :=
  .ok ((affected.map (notifyUser cs fails)).flatten ++
       broadcast_to_admins cs fails)

/-- `create_appointment` (services/appointment_service.py, lines 14-150):
truncate times, appointment-conflict query, availability gate, insert with
status "pending", then the post-commit notification block whose WebSocket
errors are swallowed.  The `AttributeError` arising when the doctor or
patient profile lookup returns `None` is not caught (only `IntegrityError`
is) and escapes as `.attrError`.  Returns the new state, the created row
and the connections notified. -/
def create_appointment (db : DB) (doctor_id patient_id : Nat)
    (start0 end0 : Tod) (appointment_date : Nat)
    (reason notes : Option String) (cs : ConnState) (fails : Nat → Bool) :
    Except CreateError (DB × Appointment × List Nat) :=
  let st := start0.trunc
  let et := end0.trunc
  if (findConflict db.appointments doctor_id appointment_date st et).isSome
  then
    .error .conflict
  else
    match availabilityGate db doctor_id appointment_date st et with
    | some e => .error e
    | none =>
      let a : Appointment :=
        ⟨db.nextId, doctor_id, patient_id, appointment_date, st, et,
         "pending", reason, notes, false, none⟩
      let db2 : DB := { db with
        appointments := db.appointments ++ [a],
        nextId := db.nextId + 1 }
      match lookupDoctor db doctor_id, lookupPatient db patient_id with
      | some dr, some pt =>
          let delivered :=
            match send_appointment_notification cs fails
                    [toString dr.user_id, toString pt.user_id] with
            | .ok l => l
            | .error _ => []
          .ok (db2, a, delivered)
      | _, _ => .error .attrError

/-- `create_appointment_by_patient_fullname` (lines 152-226): truncate,
resolve the patient by exact concatenated-name match taking the FIRST
match, then the same conflict and availability gates, insert with status
"confirmed" and `patient_id` set to the resolved patient's USER id.  This
path sends no notification. -/
def create_appointment_by_patient_fullname (db : DB) (doctor_id : Nat)
    (patient_full_name : String) (start0 end0 : Tod)
    (appointment_date : Nat) (reason notes : Option String) :
    Except CreateError (DB × Appointment) :=
  let st := start0.trunc
  let et := end0.trunc
  match findPatientByFullname db.patients patient_full_name with
  | none => .error .patientNotFound
  | some patient =>
    let patient_id := patient.user_id
    if (findConflict db.appointments doctor_id appointment_date st et).isSome
    then
      .error .conflict
    else
      match availabilityGate db doctor_id appointment_date st et with
      | some e => .error e
      | none =>
        let a : Appointment :=
          ⟨db.nextId, doctor_id, patient_id, appointment_date, st, et,
           "confirmed", reason, notes, false, none⟩
        .ok ({ db with
                 appointments := db.appointments ++ [a],
                 nextId := db.nextId + 1 }, a)

/-- Errors of the doctor-driven `update_appointment_status` service
function. -/
inductive UpdError
  /-- "Appointment not found or unauthorized" -/
  | notFoundOrUnauthorized
  /-- "Invalid status. Allowed: ..." -/
  | invalidStatus
  /-- "Failed to update appointment status: ..." (the blanket
  `except Exception` around commit + notification) -/
  | updateFailed
deriving DecidableEq, Repr

/-- The allowed-status list repeated at the doctor update site. -/
def allowed_statuses : List String :=
  ["confirmed", "pending", "done", "cancelled", "absent",
   "undetermined_confirmed", "undetermined_pending"]

/-- Replace the row with the given id (SQLAlchemy mutates the loaded object
in place and commits). -/
def replaceAppt (apts : List Appointment) (a : Appointment) :
    List Appointment :=
  apts.map fun x => if x.id == a.id then a else x

/-- `update_appointment_status` (service, lines 228-304): fetch by
(id, doctor_id), validate the status against the allowed list, set
status/is_updated/update_date, then — inside the same `try` — fetch the
profiles and `await` the notification; any exception there (e.g. the
`AttributeError` of a missing profile) rolls back and raises
"Failed to update appointment status". -/
def update_appointment_status_service (db : DB) (appointment_id : Nat)
    (new_status : String) (doctor_id : Nat) (now_ts : Nat) (cs : ConnState)
    (fails : Nat → Bool) : Except UpdError (DB × Appointment × List Nat) :=
  match db.appointments.find?
      (fun a => a.id == appointment_id && a.doctor_id == doctor_id) with
  | none => .error .notFoundOrUnauthorized
  | some a =>
    if new_status ∈ allowed_statuses then
      let a2 := { a with
        status := new_status, is_updated := true,
        update_date := some now_ts }
      match lookupDoctor db doctor_id, lookupPatient db a.patient_id with
      | some dr, some pt =>
          match send_appointment_notification cs fails
                  [toString dr.user_id, toString pt.user_id] with
          | .ok l =>
              .ok ({ db with appointments := replaceAppt db.appointments a2 },
                   a2, l)
          | .error _ => .error .updateFailed
      | _, _ => .error .updateFailed
    else .error .invalidStatus

/-- Partial update payload of the PUT endpoint.  The route passes the raw
strings to the service, which parses dates as `%Y-%m-%d` and times as
`%H:%M:%S`; we embed the already-parsed values (so a time carries whatever
seconds the client wrote, and microseconds are zero by the format). -/
structure UpdateData where
  doctor_id : Option Nat
  patient_id : Option Nat
  appointment_date : Option Nat
  start_time : Option Tod
  end_time : Option Tod
  reason : Option (Option String)
  notes : Option (Option String)
deriving Repr

/-- `update_appointment_details` (lines 336-411): merge the payload with
the current row — note: the parsed times are used as-is, with no
`replace(second=0, microsecond=0)` — run the self-excluding conflict
query, run the availability gate only when a date/time field changed,
apply the edits, mark `is_updated` and `update_date`, commit. -/
def update_appointment_details (db : DB) (a : Appointment)
    (upd : UpdateData) (now_ts : Nat) :
    Except CreateError (DB × Appointment) :=
  let new_doctor_id := upd.doctor_id.getD a.doctor_id
  let new_patient_id := upd.patient_id.getD a.patient_id
  let new_appointment_date := upd.appointment_date.getD a.appointment_date
  let new_start_time := upd.start_time.getD a.start_time
  let new_end_time := upd.end_time.getD a.end_time
  if (findConflictExcl db.appointments a.id new_doctor_id
        new_appointment_date new_start_time new_end_time).isSome then
    .error .conflict
  else
    let gate :=
      if upd.appointment_date.isSome || upd.start_time.isSome ||
         upd.end_time.isSome then
        availabilityGate db new_doctor_id new_appointment_date
          new_start_time new_end_time
      else
        none
    match gate with
    | some e => .error e
    | none =>
      let a2 : Appointment :=
        { a with
          doctor_id := new_doctor_id,
          patient_id := new_patient_id,
          appointment_date := new_appointment_date,
          start_time := new_start_time,
          end_time := new_end_time,
          reason := upd.reason.getD a.reason,
          notes := upd.notes.getD a.notes,
          is_updated := true,
          update_date := some now_ts }
      .ok ({ db with appointments := replaceAppt db.appointments a2 }, a2)

/-! ### Background reconciliation task (services/appointment_updater.py) -/

/-- The past-appointment filter of `process_past_appointments`:
`appointment_date < today or (appointment_date == today and
end_time < now)`, together with the status filter. -/
def isPastWithStatus (status : String) (today : Nat) (now : Tod)
    (a : Appointment) : Bool :=
  a.status == status &&
  (a.appointment_date < today ||
   (a.appointment_date == today && a.end_time.lt now))

/-- `appointment.notes + "\n" + reason if appointment.notes else reason`:
Python truthiness sends both `None` and the empty string to the
no-previous-notes branch. -/
def appendNote (notes : Option String) (reason : String) : String :=
  match notes with
  | some n => if n.isEmpty then reason else n ++ "\n" ++ reason
  | none => reason

/-- A notification emitted by the reconciliation task: the appointment it
concerns and the two recipient user ids (doctor, patient). -/
structure AutoEvent where
  appointment_id : Nat
  old_status : String
  new_status : String
  recipients : List String
deriving DecidableEq, Repr

/-- `update_appointment_status` (appointment_updater.py, lines 100-165):
set status / `is_updated` / `update_date`, append the reason to `notes`,
THEN return early — skipping the notification — when the doctor or
patient link (profile or its user) is missing.  The state change happens
in both cases; only the event differs. -/
def auto_update_appointment_status (db : DB) (now_ts : Nat)
    (a : Appointment) (new_status reason : String) :
    Appointment × Option AutoEvent :=
  let old_status := a.status
  let a2 : Appointment :=
    { a with
      status := new_status,
      is_updated := true,
      update_date := some now_ts,
      notes := some (appendNote a.notes reason) }
  match lookupDoctor db a.doctor_id, lookupPatient db a.patient_id with
  | some dr, some pt =>
      (a2, some ⟨a.id, old_status, new_status,
                 [toString dr.user_id, toString pt.user_id]⟩)
  | _, _ => (a2, none)

def confirmedReason : String :=
  "Automatically marked as undetermined (confirmed) as the appointment time has passed."

def pendingReason : String :=
  "Automatically marked as undetermined (pending) as the appointment time has passed."

/-- One selection-and-transition pass of the reconciliation tick: rows
matching the filter are transitioned, the rest are untouched. -/
def reconcilePass (db : DB) (today : Nat) (now : Tod) (now_ts : Nat)
    (status new_status reason : String) (apts : List Appointment) :
    List Appointment × List AutoEvent :=
  let step := apts.map fun a =>
    if isPastWithStatus status today now a then
      let (a2, ev) := auto_update_appointment_status db now_ts a new_status reason
      (a2, ev)
    else
      (a, none)
  (step.map Prod.fst, step.filterMap Prod.snd)

/-- `process_past_appointments` (lines 35-98): the confirmed pass
(`confirmed → undetermined_confirmed`) followed by the pending pass
(`pending → undetermined_pending`), one commit at the end.  Returns the
new appointment table and the notifications emitted. -/
def process_past_appointments (db : DB) (today : Nat) (now : Tod)
    (now_ts : Nat) : DB × List AutoEvent :=
  let p1 := reconcilePass db today now now_ts "confirmed"
              "undetermined_confirmed" confirmedReason db.appointments
  let p2 := reconcilePass db today now now_ts "pending"
              "undetermined_pending" pendingReason p1.1
  ({ db with appointments := p2.1 }, p1.2 ++ p2.2)

/-! ### Route layer (routes/appointment_routes.py) -/

inductive Role
  | doctor
  | patient
  | admin
  | other
deriving DecidableEq, Repr

/-- The authenticated user as the routes see it. -/
structure CurrentUser where
  role : Role
  doctor_profile_id : Option Nat
  patient_profile_id : Option Nat
deriving Repr

/-- HTTP-level outcomes of the appointment endpoints. -/
inductive ApiError
  /-- 404 -/
  | notFound
  /-- 403 -/
  | forbidden (msg : String)
  /-- 400 (the blanket `except Exception` handlers) -/
  | badRequest
deriving DecidableEq, Repr

/-- `add_appointment` (POST /appointments, lines 242-306): truncate the
start time, default a missing end time to start + 1 hour (truncated after
the addition), and call `create_appointment` with
`patient_id=current_user.patient_profile.id`.  Any service exception —
including the `AttributeError` when the user has no patient profile — is
caught and mapped to a 400. -/
def add_appointment (db : DB) (u : CurrentUser) (doctor_id : Nat)
    (start_time : Tod) (end_time : Option Tod) (appointment_date : Nat)
    (reason notes : Option String) (cs : ConnState) (fails : Nat → Bool) :
    Except ApiError (DB × Appointment) :=
  let st := start_time.trunc
  let et :=
    match end_time with
    | some e => e.trunc
    | none => start_time.addHour.trunc
  match u.patient_profile_id with
  | none => .error .badRequest
  | some pid =>
    match create_appointment db doctor_id pid st et appointment_date
            reason notes cs fails with
    | .ok (db2, a, _) => .ok (db2, a)
    | .error _ => .error .badRequest

/-- `update_appointment_status_endpoint`
(PATCH /appointments/id/status, lines 343-387).  The patient branch
checks ownership, then that the requested status is exactly "cancelled" —
and nothing else: the current status, terminal or not, is never
consulted — then commits the cancellation.  The doctor branch delegates
to the service function. -/
def update_appointment_status_endpoint (db : DB) (appointment_id : Nat)
    (new_status : String) (u : CurrentUser) (now_ts : Nat)
    (cs : ConnState) (fails : Nat → Bool) :
    Except ApiError (DB × String) :=
  match db.appointments.find? (fun a => a.id == appointment_id) with
  | none => .error .notFound
  | some a =>
    match u.role with
    | .patient =>
      match u.patient_profile_id with
      | none => .error .badRequest
      | some pid =>
        if a.patient_id != pid then
          .error (.forbidden "You can only update your own appointments")
        else if new_status != "cancelled" then
          .error (.forbidden "Patients can only cancel appointments")
        else
          let a2 := { a with
            status := "cancelled", is_updated := true,
            update_date := some now_ts }
          .ok ({ db with appointments := replaceAppt db.appointments a2 },
               a2.status)
    | .doctor =>
      match u.doctor_profile_id with
      | none => .error .badRequest
      | some did =>
        match update_appointment_status_service db appointment_id
                new_status did now_ts cs fails with
        | .ok (db2, a2, _) => .ok (db2, a2.status)
        | .error _ => .error .badRequest
    | _ =>
      .error (.forbidden
        "Only doctors and patients can update appointment status")

/-- Spec-side reading of one declared availability interval overlapping
the request (modelled from the claim wording "overlaps one of the
record's declared intervals under the half-open test"). -/
def intervalOverlapB (os oe : Option Tod) (st et : Tod) : Bool :=
  match os, oe with
  | some s, some e => overlaps st et s e
  | _, _ => false

/-- Spec-side reading: the request overlaps at least one of the record's
up-to-three declared intervals. -/
def declaredIntervalOverlap (av : DoctorAvailability) (st et : Tod) : Bool :=
  intervalOverlapB av.start_time av.end_time st et ||
  intervalOverlapB av.start_time2 av.end_time2 st et ||
  intervalOverlapB av.start_time3 av.end_time3 st et

/-- All stored interval bounds of an availability record are whole-minute
values. -/
def DoctorAvailability.alignedTimes (av : DoctorAvailability) : Bool :=
  (av.start_time.getD ⟨0, 0, 0, 0⟩).trunc == av.start_time.getD ⟨0, 0, 0, 0⟩ &&
  (av.end_time.getD ⟨0, 0, 0, 0⟩).trunc == av.end_time.getD ⟨0, 0, 0, 0⟩ &&
  (av.start_time2.getD ⟨0, 0, 0, 0⟩).trunc == av.start_time2.getD ⟨0, 0, 0, 0⟩ &&
  (av.end_time2.getD ⟨0, 0, 0, 0⟩).trunc == av.end_time2.getD ⟨0, 0, 0, 0⟩ &&
  (av.start_time3.getD ⟨0, 0, 0, 0⟩).trunc == av.start_time3.getD ⟨0, 0, 0, 0⟩ &&
  (av.end_time3.getD ⟨0, 0, 0, 0⟩).trunc == av.end_time3.getD ⟨0, 0, 0, 0⟩

/-- Forget the delivered-connection bookkeeping of a creation result:
what the calling HTTP layer observes. -/
def createOutcome (r : Except CreateError (DB × Appointment × List Nat)) :
    Except CreateError (DB × Appointment) :=
  r.map fun x => (x.1, x.2.1)

/-- Forget the delivered-connection bookkeeping of a status-update
result. -/
def updateOutcome (r : Except UpdError (DB × Appointment × List Nat)) :
    Except UpdError (DB × Appointment) :=
  r.map fun x => (x.1, x.2.1)

/-! ### Helper lemmas -/

theorem Tod.trunc_of_aligned {t : Tod} (h : t.aligned) : t.trunc = t := by
  obtain ⟨h1, h2⟩ := h
  cases t
  simp_all [Tod.trunc]

/-- No appointment row for this doctor and date at all. -/
def noApptsFor (apts : List Appointment) (doc d : Nat) : Bool :=
  apts.all fun a => !(a.doctor_id == doc && a.appointment_date == d)

theorem findConflict_of_noApptsFor {apts : List Appointment} {doc d : Nat}
    (h : noApptsFor apts doc d = true) (st et : Tod) :
    findConflict apts doc d st et = none := by
  rw [findConflict, List.find?_eq_none]
  intro a ha
  have := (List.all_eq_true.mp h) a ha
  simp only [Bool.not_eq_true', Bool.and_eq_false_iff] at this
  simp only [Bool.and_eq_true, not_and, Bool.not_eq_true]
  rcases this with h1 | h1 <;> intro hcon <;>
    simp_all [Bool.and_eq_true]

/-- Inversion of a successful `create_appointment` call. -/
theorem create_appointment_ok_inv {db : DB} {doc pat : Nat}
    {st0 et0 : Tod} {d : Nat} {r n : Option String} {cs : ConnState}
    {fails : Nat → Bool} {db2 : DB} {a : Appointment} {l : List Nat}
    (h : create_appointment db doc pat st0 et0 d r n cs fails
           = .ok (db2, a, l)) :
    findConflict db.appointments doc d st0.trunc et0.trunc = none ∧
    availabilityGate db doc d st0.trunc et0.trunc = none ∧
    a = ⟨db.nextId, doc, pat, d, st0.trunc, et0.trunc, "pending", r, n,
         false, none⟩ ∧
    db2.appointments = db.appointments ++ [a] ∧
    db2.availabilities = db.availabilities ∧
    db2.doctors = db.doctors ∧
    db2.patients = db.patients := by
  unfold create_appointment at h
  simp only at h
  split at h
  · exact absurd h (by simp)
  · split at h
    · exact absurd h (by simp)
    · split at h
      · simp only [Except.ok.injEq, Prod.mk.injEq] at h
        obtain ⟨hdb, ha, _⟩ := h
        subst hdb
        refine ⟨?_, by assumption, ha.symm, by simp [← ha], rfl, rfl, rfl⟩
        rcases hfc : findConflict db.appointments doc d st0.trunc et0.trunc
          with _ | x
        · rfl
        · simp_all
      · exact absurd h (by simp)

/-- Inversion of a successful `create_appointment_by_patient_fullname`. -/
theorem create_by_fullname_ok_inv {db : DB} {doc : Nat} {name : String}
    {st0 et0 : Tod} {d : Nat} {r n : Option String} {db2 : DB}
    {a : Appointment}
    (h : create_appointment_by_patient_fullname db doc name st0 et0 d r n
           = .ok (db2, a)) :
    ∃ p, findPatientByFullname db.patients name = some p ∧
    findConflict db.appointments doc d st0.trunc et0.trunc = none ∧
    availabilityGate db doc d st0.trunc et0.trunc = none ∧
    a = ⟨db.nextId, doc, p.user_id, d, st0.trunc, et0.trunc, "confirmed",
         r, n, false, none⟩ ∧
    db2.appointments = db.appointments ++ [a] := by
  unfold create_appointment_by_patient_fullname at h
  simp only at h
  split at h
  · exact absurd h (by simp)
  · split at h
    · exact absurd h (by simp)
    · split at h
      · exact absurd h (by simp)
      · simp only [Except.ok.injEq, Prod.mk.injEq] at h
        obtain ⟨hdb, ha⟩ := h
        subst hdb
        refine ⟨_, by assumption, ?_, by assumption, ha.symm,
                by simp [← ha]⟩
        rcases hfc : findConflict db.appointments doc d st0.trunc et0.trunc
          with _ | x
        · rfl
        · simp_all

/-- Inversion of a successful `update_appointment_details`. -/
theorem update_details_ok_inv {db : DB} {a0 : Appointment}
    {upd : UpdateData} {ts : Nat} {db2 : DB} {a2 : Appointment}
    (h : update_appointment_details db a0 upd ts = .ok (db2, a2)) :
    a2.start_time = upd.start_time.getD a0.start_time ∧
    a2.end_time = upd.end_time.getD a0.end_time ∧
    a2.is_updated = true ∧
    a2.update_date = some ts := by
  unfold update_appointment_details at h
  simp only at h
  split at h
  · exact absurd h (by simp)
  · split at h
    · exact absurd h (by simp)
    · simp only [Except.ok.injEq, Prod.mk.injEq] at h
      obtain ⟨_, ha⟩ := h
      subst ha
      exact ⟨rfl, rfl, rfl, rfl⟩

/-! ### C4 — time normalization -/

/-- C4 (amended): the two creation paths truncate `start_time` and
`end_time` to whole minutes before comparison and persistence, but
`update_appointment_details` persists the parsed `%H:%M:%S` times as-is,
so an updated appointment can carry nonzero seconds. -/
theorem C4_time_normalization_amended :
    (∀ (db : DB) (doc pat : Nat) (st0 et0 : Tod) (d : Nat)
       (r n : Option String) (cs : ConnState) (fails : Nat → Bool)
       (db2 : DB) (a : Appointment) (l : List Nat),
       create_appointment db doc pat st0 et0 d r n cs fails
         = .ok (db2, a, l) →
       a.start_time = st0.trunc ∧ a.end_time = et0.trunc ∧
       a.start_time.second = 0 ∧ a.start_time.microsecond = 0 ∧
       a.end_time.second = 0 ∧ a.end_time.microsecond = 0) ∧
    (∀ (db : DB) (doc : Nat) (name : String) (st0 et0 : Tod) (d : Nat)
       (r n : Option String) (db2 : DB) (a : Appointment),
       create_appointment_by_patient_fullname db doc name st0 et0 d r n
         = .ok (db2, a) →
       a.start_time = st0.trunc ∧ a.end_time = et0.trunc ∧
       a.start_time.second = 0 ∧ a.end_time.second = 0) ∧
    (∀ (db : DB) (a0 : Appointment) (upd : UpdateData) (ts : Nat)
       (db2 : DB) (a2 : Appointment),
       update_appointment_details db a0 upd ts = .ok (db2, a2) →
       a2.start_time = upd.start_time.getD a0.start_time ∧
       a2.end_time = upd.end_time.getD a0.end_time) := by
  refine ⟨?_, ?_, ?_⟩
  · intro db doc pat st0 et0 d r n cs fails db2 a l h
    obtain ⟨-, -, ha, -⟩ := create_appointment_ok_inv h
    subst ha
    exact ⟨rfl, rfl, rfl, rfl, rfl, rfl⟩
  · intro db doc name st0 et0 d r n db2 a h
    obtain ⟨p, -, -, -, ha, -⟩ := create_by_fullname_ok_inv h
    subst ha
    exact ⟨rfl, rfl, rfl, rfl⟩
  · intro db a0 upd ts db2 a2 h
    obtain ⟨h1, h2, -⟩ := update_details_ok_inv h
    exact ⟨h1, h2⟩

/-- C4 counterexample: an update whose `start_time` parsed to 10:00:30
succeeds and the stored appointment keeps `second = 30` — refuting
"stored appointment times always have zero seconds and microseconds". -/
theorem C4_counterexample :
    (match update_appointment_details
        ⟨[⟨1, 1, 2, 5, ⟨9, 0, 0, 0⟩, ⟨10, 0, 0, 0⟩, "pending", none, none,
           false, none⟩], [], [], [], 2⟩
        ⟨1, 1, 2, 5, ⟨9, 0, 0, 0⟩, ⟨10, 0, 0, 0⟩, "pending", none, none,
         false, none⟩
        ⟨none, none, none, some ⟨10, 0, 30, 0⟩, some ⟨11, 0, 0, 0⟩,
         none, none⟩ 77 with
     | .ok (_, a2) => a2.start_time.second == 30
     | .error _ => false) = true := by
  decide

/-- C4 witness: the amended theorem applied to a concrete successful
creation whose raw start time is 09:00:37.500000. -/
theorem C4_witness :
    ∃ (db2 : DB) (a : Appointment) (l : List Nat),
      create_appointment ⟨[], [], [⟨1, 100, "A", "B"⟩],
          [⟨2, 200, "C", "D"⟩], 7⟩ 1 2 ⟨9, 0, 37, 500000⟩ ⟨10, 0, 0, 0⟩ 3
          none none ⟨[], []⟩ (fun _ => false) = .ok (db2, a, l) ∧
      a.start_time = Tod.trunc ⟨9, 0, 37, 500000⟩ ∧
      a.start_time.second = 0 := by
  have h : create_appointment ⟨[], [], [⟨1, 100, "A", "B"⟩],
      [⟨2, 200, "C", "D"⟩], 7⟩ 1 2 ⟨9, 0, 37, 500000⟩ ⟨10, 0, 0, 0⟩ 3
      none none ⟨[], []⟩ (fun _ => false) =
      .ok (⟨[⟨7, 1, 2, 3, ⟨9, 0, 0, 0⟩, ⟨10, 0, 0, 0⟩, "pending", none,
              none, false, none⟩], [], [⟨1, 100, "A", "B"⟩],
            [⟨2, 200, "C", "D"⟩], 8⟩,
           ⟨7, 1, 2, 3, ⟨9, 0, 0, 0⟩, ⟨10, 0, 0, 0⟩, "pending", none,
            none, false, none⟩, []) := by rfl
  exact ⟨_, _, _, h,
    (C4_time_normalization_amended.1 _ _ _ _ _ _ _ _ _ _ _ _ _ h).1,
    (C4_time_normalization_amended.1 _ _ _ _ _ _ _ _ _ _ _ _ _ h).2.2.1⟩

theorem availabilityError_cases {av : DoctorAvailability} {st et : Tod}
    {e : CreateError} (h : availabilityError av st et = some e) :
    e = .unavailPrimary ∨ e = .unavailSecondary ∨ e = .unavailTertiary := by
  unfold availabilityError at h
  split at h
  · exact Or.inl (Option.some.inj h).symm
  · split at h
    · exact Or.inr (Or.inl (Option.some.inj h).symm)
    · split at h
      · exact Or.inr (Or.inr (Option.some.inj h).symm)
      · cases h

theorem availabilityGate_cases {db : DB} {doc d : Nat} {st et : Tod}
    {e : CreateError} (h : availabilityGate db doc d st et = some e) :
    e = .unavailPrimary ∨ e = .unavailSecondary ∨ e = .unavailTertiary := by
  unfold availabilityGate at h
  split at h
  · exact availabilityError_cases h
  · cases h

/-! ### C9 — doctor-initiated booking by patient full name -/

/-- C9 (amended): the patient is resolved by exact case-sensitive match of
"first_name last_name"; the call fails with the not-found error exactly
when NO patient matches — an ambiguous name does not fail, the first
matching row is used — and a successful call persists the appointment
with status "confirmed". -/
theorem C9_fullname_booking_amended :
    (∀ (db : DB) (doc : Nat) (name : String) (st0 et0 : Tod) (d : Nat)
       (r n : Option String),
       create_appointment_by_patient_fullname db doc name st0 et0 d r n
           = .error .patientNotFound ↔
         findPatientByFullname db.patients name = none) ∧
    (∀ (db : DB) (doc : Nat) (name : String) (st0 et0 : Tod) (d : Nat)
       (r n : Option String) (db2 : DB) (a : Appointment)
       (p : PatientRec),
       findPatientByFullname db.patients name = some p →
       create_appointment_by_patient_fullname db doc name st0 et0 d r n
           = .ok (db2, a) →
       a.status = "confirmed" ∧ a.patient_id = p.user_id) := by
  constructor
  · intro db doc name st0 et0 d r n
    constructor
    · intro h
      rcases hfp : findPatientByFullname db.patients name with _ | p
      · rfl
      · exfalso
        unfold create_appointment_by_patient_fullname at h
        rw [hfp] at h
        simp only at h
        split at h
        · cases h
        · split at h
          · rename_i heq
            cases Except.error.inj h
            rcases availabilityGate_cases heq with h1 | h1 | h1 <;>
              simp_all
          · cases h
    · intro h
      unfold create_appointment_by_patient_fullname
      rw [h]
  · intro db doc name st0 et0 d r n db2 a p hfp h
    obtain ⟨q, hq, -, -, ha, -⟩ := create_by_fullname_ok_inv h
    rw [hfp] at hq
    cases hq
    subst ha
    exact ⟨rfl, rfl⟩

/-- C9 counterexample: two distinct patients both named "John Doe" exist;
booking by that name does not fail with the not-found error — it succeeds
using the first match — refuting "fails ... when no unique patient matches
(absent or ambiguous name)". -/
theorem C9_counterexample :
    (([⟨1, 10, "John", "Doe"⟩, ⟨2, 20, "John", "Doe"⟩] :
        List PatientRec).filter
      (fun p => p.first_name ++ " " ++ p.last_name == "John Doe")).length
        = 2 ∧
    (match create_appointment_by_patient_fullname
        ⟨[], [], [], [⟨1, 10, "John", "Doe"⟩, ⟨2, 20, "John", "Doe"⟩], 5⟩
        1 "John Doe" ⟨9, 0, 0, 0⟩ ⟨10, 0, 0, 0⟩ 4 none none with
     | .ok (_, a) => a.patient_id == 10 && (a.status == "confirmed")
     | .error _ => false) = true := by
  constructor
  · decide
  · decide

/-- C9 witness: the amended theorem applied to a concrete successful
full-name booking. -/
theorem C9_witness :
    ∃ (db2 : DB) (a : Appointment),
      create_appointment_by_patient_fullname
        ⟨[], [], [⟨1, 100, "A", "B"⟩], [⟨2, 200, "C", "D"⟩], 7⟩
        1 "C D" ⟨9, 0, 0, 0⟩ ⟨10, 0, 0, 0⟩ 3 none none = .ok (db2, a) ∧
      a.status = "confirmed" ∧ a.patient_id = 200 := by
  have h : create_appointment_by_patient_fullname
      ⟨[], [], [⟨1, 100, "A", "B"⟩], [⟨2, 200, "C", "D"⟩], 7⟩
      1 "C D" ⟨9, 0, 0, 0⟩ ⟨10, 0, 0, 0⟩ 3 none none =
      .ok (⟨[⟨7, 1, 200, 3, ⟨9, 0, 0, 0⟩, ⟨10, 0, 0, 0⟩, "confirmed",
              none, none, false, none⟩], [], [⟨1, 100, "A", "B"⟩],
            [⟨2, 200, "C", "D"⟩], 8⟩,
           ⟨7, 1, 200, 3, ⟨9, 0, 0, 0⟩, ⟨10, 0, 0, 0⟩, "confirmed", none,
            none, false, none⟩) := by rfl
  have hp : findPatientByFullname
      ([⟨2, 200, "C", "D"⟩] : List PatientRec) "C D"
        = some ⟨2, 200, "C", "D"⟩ := by rfl
  exact ⟨_, _, h,
    (C9_fullname_booking_amended.2 _ _ _ _ _ _ _ _ _ _ _ hp h).1,
    (C9_fullname_booking_amended.2 _ _ _ _ _ _ _ _ _ _ _ hp h).2⟩

/-! ### C10 — patient_id recorded by the two creation paths -/

/-- Inversion of a successful `add_appointment` route call. -/
theorem add_appointment_ok_inv {db : DB} {u : CurrentUser} {doc : Nat}
    {st0 : Tod} {oet : Option Tod} {d : Nat} {r n : Option String}
    {cs : ConnState} {fails : Nat → Bool} {db2 : DB} {a : Appointment}
    (h : add_appointment db u doc st0 oet d r n cs fails = .ok (db2, a)) :
    ∃ pid, u.patient_profile_id = some pid ∧ a.patient_id = pid ∧
      a.status = "pending" ∧ a.start_time = st0.trunc ∧
      a.end_time = (match oet with
                    | some e => e.trunc
                    | none => st0.addHour.trunc) := by
  unfold add_appointment at h
  simp only at h
  split at h
  · cases h
  · rename_i pid hpid
    split at h
    · rename_i db3 a3 l3 hcr
      obtain ⟨-, -, ha, -⟩ := create_appointment_ok_inv hcr
      simp only [Except.ok.injEq, Prod.mk.injEq] at h
      obtain ⟨-, ha2⟩ := h
      subst ha2
      subst ha
      refine ⟨pid, hpid, rfl, rfl, ?_, ?_⟩
      · cases oet <;> simp [Tod.trunc]
      · cases oet <;> simp [Tod.trunc, Tod.addHour]
    · cases h

/-- C10: the full-name path records the resolved patient's USER id while
the direct route records the patient's PROFILE id; for a patient whose
profile id (1) differs from their user id (2) the two paths persist
different `patient_id` values for the same person. -/
theorem C10_patient_id_mismatch :
    (∀ (db : DB) (doc : Nat) (name : String) (st0 et0 : Tod) (d : Nat)
       (r n : Option String) (db2 : DB) (a : Appointment) (p : PatientRec),
       findPatientByFullname db.patients name = some p →
       create_appointment_by_patient_fullname db doc name st0 et0 d r n
           = .ok (db2, a) →
       a.patient_id = p.user_id) ∧
    (∀ (db : DB) (u : CurrentUser) (doc : Nat) (st0 : Tod)
       (oet : Option Tod) (d : Nat) (r n : Option String) (cs : ConnState)
       (fails : Nat → Bool) (db2 : DB) (a : Appointment) (pid : Nat),
       u.patient_profile_id = some pid →
       add_appointment db u doc st0 oet d r n cs fails = .ok (db2, a) →
       a.patient_id = pid) ∧
    ((match add_appointment
        ⟨[], [], [⟨5, 50, "D", "R"⟩], [⟨1, 2, "Jane", "Roe"⟩], 11⟩
        ⟨.patient, none, some 1⟩ 5 ⟨9, 0, 0, 0⟩ (some ⟨10, 0, 0, 0⟩) 4
        none none ⟨[], []⟩ (fun _ => false) with
      | .ok (_, a) => a.patient_id == 1
      | .error _ => false) = true ∧
     (match create_appointment_by_patient_fullname
        ⟨[], [], [⟨5, 50, "D", "R"⟩], [⟨1, 2, "Jane", "Roe"⟩], 11⟩
        5 "Jane Roe" ⟨9, 0, 0, 0⟩ ⟨10, 0, 0, 0⟩ 4 none none with
      | .ok (_, a) => a.patient_id == 2
      | .error _ => false) = true ∧
     (1 : Nat) ≠ 2) := by
  refine ⟨?_, ?_, by decide, by decide, by decide⟩
  · intro db doc name st0 et0 d r n db2 a p hfp h
    obtain ⟨q, hq, -, -, ha, -⟩ := create_by_fullname_ok_inv h
    rw [hfp] at hq
    cases hq
    subst ha
    rfl
  · intro db u doc st0 oet d r n cs fails db2 a pid hpid h
    obtain ⟨pid2, hpid2, hpat, -⟩ := add_appointment_ok_inv h
    rw [hpid] at hpid2
    cases hpid2
    exact hpat

/-- C10 witness: both universal conjuncts applied to the concrete patient
with profile id 1 and user id 2. -/
theorem C10_witness :
    ∃ (db2 db3 : DB) (a b : Appointment),
      add_appointment
        ⟨[], [], [⟨5, 50, "D", "R"⟩], [⟨1, 2, "Jane", "Roe"⟩], 11⟩
        ⟨.patient, none, some 1⟩ 5 ⟨9, 0, 0, 0⟩ (some ⟨10, 0, 0, 0⟩) 4
        none none ⟨[], []⟩ (fun _ => false) = .ok (db2, a) ∧
      create_appointment_by_patient_fullname
        ⟨[], [], [⟨5, 50, "D", "R"⟩], [⟨1, 2, "Jane", "Roe"⟩], 11⟩
        5 "Jane Roe" ⟨9, 0, 0, 0⟩ ⟨10, 0, 0, 0⟩ 4 none none
        = .ok (db3, b) ∧
      a.patient_id = 1 ∧ b.patient_id = 2 := by
  have h1 : add_appointment
      ⟨[], [], [⟨5, 50, "D", "R"⟩], [⟨1, 2, "Jane", "Roe"⟩], 11⟩
      ⟨.patient, none, some 1⟩ 5 ⟨9, 0, 0, 0⟩ (some ⟨10, 0, 0, 0⟩) 4
      none none ⟨[], []⟩ (fun _ => false) =
      .ok (⟨[⟨11, 5, 1, 4, ⟨9, 0, 0, 0⟩, ⟨10, 0, 0, 0⟩, "pending", none,
              none, false, none⟩], [], [⟨5, 50, "D", "R"⟩],
            [⟨1, 2, "Jane", "Roe"⟩], 12⟩,
           ⟨11, 5, 1, 4, ⟨9, 0, 0, 0⟩, ⟨10, 0, 0, 0⟩, "pending", none,
            none, false, none⟩) := by rfl
  have h2 : create_appointment_by_patient_fullname
      ⟨[], [], [⟨5, 50, "D", "R"⟩], [⟨1, 2, "Jane", "Roe"⟩], 11⟩
      5 "Jane Roe" ⟨9, 0, 0, 0⟩ ⟨10, 0, 0, 0⟩ 4 none none =
      .ok (⟨[⟨11, 5, 2, 4, ⟨9, 0, 0, 0⟩, ⟨10, 0, 0, 0⟩, "confirmed", none,
              none, false, none⟩], [], [⟨5, 50, "D", "R"⟩],
            [⟨1, 2, "Jane", "Roe"⟩], 12⟩,
           ⟨11, 5, 2, 4, ⟨9, 0, 0, 0⟩, ⟨10, 0, 0, 0⟩, "confirmed", none,
            none, false, none⟩) := by rfl
  have hp : findPatientByFullname
      ([⟨1, 2, "Jane", "Roe"⟩] : List PatientRec) "Jane Roe"
        = some ⟨1, 2, "Jane", "Roe"⟩ := by rfl
  exact ⟨_, _, _, _, h1, h2,
    C10_patient_id_mismatch.2.1 _ _ _ _ _ _ _ _ _ _ _ _ _ rfl h1,
    C10_patient_id_mismatch.1 _ _ _ _ _ _ _ _ _ _ _ hp h2⟩

/-! ### C5 — patient status updates -/

/-- C5 (amended): on their own appointment a patient's status-update
request succeeds exactly when the requested status is "cancelled" —
regardless of the appointment's current status, terminal or not (the code
never consults it); any other requested status fails with a 403, and a
request on another patient's appointment fails with a 403. -/
theorem C5_patient_status_update_amended
    (db : DB) (id : Nat) (ns : String) (pid ts : Nat) (cs : ConnState)
    (fails : Nat → Bool) (a : Appointment)
    (hfind : db.appointments.find? (fun x => x.id == id) = some a) :
    (a.patient_id = pid → ns = "cancelled" →
      update_appointment_status_endpoint db id ns
          ⟨.patient, none, some pid⟩ ts cs fails =
        .ok ({ db with appointments :=
                 replaceAppt db.appointments { a with
                   status := "cancelled", is_updated := true,
                   update_date := some ts } }, "cancelled")) ∧
    (a.patient_id ≠ pid →
      update_appointment_status_endpoint db id ns
          ⟨.patient, none, some pid⟩ ts cs fails =
        .error (.forbidden "You can only update your own appointments")) ∧
    (a.patient_id = pid → ns ≠ "cancelled" →
      update_appointment_status_endpoint db id ns
          ⟨.patient, none, some pid⟩ ts cs fails =
        .error (.forbidden "Patients can only cancel appointments")) := by
  refine ⟨?_, ?_, ?_⟩
  · intro hown hns
    subst hns
    simp [update_appointment_status_endpoint, hfind, hown]
  · intro hother
    simp [update_appointment_status_endpoint, hfind, hother]
  · intro hown hns
    simp [update_appointment_status_endpoint, hfind, hown, hns]

/-- C5 counterexample: an appointment whose current status is the
terminal "done" is still successfully cancelled by its patient — refuting
"succeeds only when ... the appointment's current status is
non-terminal". -/
theorem C5_counterexample :
    ((⟨[⟨1, 1, 9, 4, ⟨9, 0, 0, 0⟩, ⟨10, 0, 0, 0⟩, "done", none, none,
         false, none⟩], [], [], [], 2⟩ : DB).appointments.find?
        (fun x => x.id == 1)).map Appointment.status = some "done" ∧
    (match update_appointment_status_endpoint
        ⟨[⟨1, 1, 9, 4, ⟨9, 0, 0, 0⟩, ⟨10, 0, 0, 0⟩, "done", none, none,
           false, none⟩], [], [], [], 2⟩ 1 "cancelled"
        ⟨.patient, none, some 9⟩ 50 ⟨[], []⟩ (fun _ => false) with
     | .ok (_, s) => s == "cancelled"
     | .error _ => false) = true := by
  exact ⟨by decide, by decide⟩

/-- C5 witness: all three branches of the amended theorem at concrete
inputs. -/
theorem C5_witness :
    update_appointment_status_endpoint
        ⟨[⟨1, 1, 9, 4, ⟨9, 0, 0, 0⟩, ⟨10, 0, 0, 0⟩, "pending", none, none,
           false, none⟩], [], [], [], 2⟩ 1 "cancelled"
        ⟨.patient, none, some 9⟩ 50 ⟨[], []⟩ (fun _ => false) =
      .ok (⟨[⟨1, 1, 9, 4, ⟨9, 0, 0, 0⟩, ⟨10, 0, 0, 0⟩, "cancelled", none,
              none, true, some 50⟩], [], [], [], 2⟩, "cancelled") ∧
    update_appointment_status_endpoint
        ⟨[⟨1, 1, 9, 4, ⟨9, 0, 0, 0⟩, ⟨10, 0, 0, 0⟩, "pending", none, none,
           false, none⟩], [], [], [], 2⟩ 1 "cancelled"
        ⟨.patient, none, some 8⟩ 50 ⟨[], []⟩ (fun _ => false) =
      .error (.forbidden "You can only update your own appointments") ∧
    update_appointment_status_endpoint
        ⟨[⟨1, 1, 9, 4, ⟨9, 0, 0, 0⟩, ⟨10, 0, 0, 0⟩, "pending", none, none,
           false, none⟩], [], [], [], 2⟩ 1 "done"
        ⟨.patient, none, some 9⟩ 50 ⟨[], []⟩ (fun _ => false) =
      .error (.forbidden "Patients can only cancel appointments") := by
  refine ⟨?_, ?_, ?_⟩
  · have h := (C5_patient_status_update_amended
      ⟨[⟨1, 1, 9, 4, ⟨9, 0, 0, 0⟩, ⟨10, 0, 0, 0⟩, "pending", none, none,
         false, none⟩], [], [], [], 2⟩ 1 "cancelled" 9 50 ⟨[], []⟩
      (fun _ => false) _ rfl).1 rfl rfl
    exact h
  · exact (C5_patient_status_update_amended
      ⟨[⟨1, 1, 9, 4, ⟨9, 0, 0, 0⟩, ⟨10, 0, 0, 0⟩, "pending", none, none,
         false, none⟩], [], [], [], 2⟩ 1 "cancelled" 8 50 ⟨[], []⟩
      (fun _ => false) _ rfl).2.1 (by decide)
  · exact (C5_patient_status_update_amended
      ⟨[⟨1, 1, 9, 4, ⟨9, 0, 0, 0⟩, ⟨10, 0, 0, 0⟩, "pending", none, none,
         false, none⟩], [], [], [], 2⟩ 1 "done" 9 50 ⟨[], []⟩
      (fun _ => false) _ rfl).2.2 rfl (by decide)

/-! ### C3 — start/end validation and the default end time -/

/-- Forward characterization: when the conflict query is empty, the
availability gate passes and both profile lookups succeed,
`create_appointment` succeeds. -/
theorem create_appointment_ok_of {db : DB} {doc pat : Nat} {st0 et0 : Tod}
    {d : Nat} (r n : Option String) (cs : ConnState) (fails : Nat → Bool)
    {dr : DoctorRec} {pt : PatientRec}
    (h1 : findConflict db.appointments doc d st0.trunc et0.trunc = none)
    (h2 : availabilityGate db doc d st0.trunc et0.trunc = none)
    (hd : lookupDoctor db doc = some dr)
    (hp : lookupPatient db pat = some pt) :
    ∃ l, create_appointment db doc pat st0 et0 d r n cs fails =
      .ok ({ db with
               appointments := db.appointments ++
                 [⟨db.nextId, doc, pat, d, st0.trunc, et0.trunc, "pending",
                   r, n, false, none⟩],
               nextId := db.nextId + 1 },
           ⟨db.nextId, doc, pat, d, st0.trunc, et0.trunc, "pending", r, n,
            false, none⟩, l) := by
  unfold create_appointment
  simp only [h1, h2, hd, hp, Option.isSome_none, Bool.false_eq_true,
    if_false]
  exact ⟨_, rfl⟩

/-- C3 (amended): the appointment-creation path performs NO start/end
ordering validation — a request whose (normalized) start is not before
its explicit end is accepted whenever it passes the conflict and
availability gates; when the end time is omitted, the created appointment
gets end = start + one hour (wrapping past midnight), truncated to whole
minutes. -/
theorem C3_start_end_default_amended :
    (∀ (db : DB) (pid doc : Nat) (st0 et0 : Tod) (d : Nat)
       (r n : Option String) (cs : ConnState) (fails : Nat → Bool)
       (dr : DoctorRec) (pt : PatientRec),
       noApptsFor db.appointments doc d = true →
       availabilityGate db doc d st0.trunc et0.trunc = none →
       lookupDoctor db doc = some dr →
       lookupPatient db pid = some pt →
       Tod.lt st0.trunc et0.trunc = false →
       ∃ db2 a, add_appointment db ⟨.patient, none, some pid⟩ doc st0
           (some et0) d r n cs fails = .ok (db2, a)) ∧
    (∀ (db : DB) (u : CurrentUser) (doc : Nat) (st0 : Tod) (d : Nat)
       (r n : Option String) (cs : ConnState) (fails : Nat → Bool)
       (db2 : DB) (a : Appointment),
       add_appointment db u doc st0 none d r n cs fails = .ok (db2, a) →
       a.start_time = st0.trunc ∧ a.end_time = st0.addHour.trunc) := by
  constructor
  · intro db pid doc st0 et0 d r n cs fails dr pt hno hgate hd hp hge
    have h1 : findConflict db.appointments doc d st0.trunc.trunc
        et0.trunc.trunc = none :=
      findConflict_of_noApptsFor hno _ _
    have h2 : availabilityGate db doc d st0.trunc.trunc et0.trunc.trunc
        = none := by
      simpa [Tod.trunc] using hgate
    obtain ⟨l, hcr⟩ := create_appointment_ok_of r n cs fails h1 h2 hd hp
    unfold add_appointment
    simp only [hcr]
    exact ⟨_, _, rfl⟩
  · intro db u doc st0 d r n cs fails db2 a h
    obtain ⟨pid, -, -, -, hst, het⟩ := add_appointment_ok_inv h
    exact ⟨hst, het⟩

/-- C3 counterexample: an explicit-end request with start 10:00 and end
09:00 (start > end) is not rejected — it is accepted and persisted —
refuting "the request is rejected when start >= end". -/
theorem C3_counterexample :
    Tod.lt ⟨9, 0, 0, 0⟩ ⟨10, 0, 0, 0⟩ = true ∧
    (match add_appointment
        ⟨[], [], [⟨1, 100, "A", "B"⟩], [⟨2, 200, "C", "D"⟩], 7⟩
        ⟨.patient, none, some 2⟩ 1 ⟨10, 0, 0, 0⟩ (some ⟨9, 0, 0, 0⟩) 3
        none none ⟨[], []⟩ (fun _ => false) with
     | .ok (_, a) => a.start_time == ⟨10, 0, 0, 0⟩ &&
                     (a.end_time == ⟨9, 0, 0, 0⟩)
     | .error _ => false) = true := by
  exact ⟨by decide, by decide⟩

/-- C3 witness: both conjuncts of the amended theorem at concrete inputs
(a reversed explicit interval, and an omitted end time defaulting to
start + 1 hour). -/
theorem C3_witness :
    (∃ db2 a, add_appointment
        ⟨[], [], [⟨1, 100, "A", "B"⟩], [⟨2, 200, "C", "D"⟩], 7⟩
        ⟨.patient, none, some 2⟩ 1 ⟨10, 0, 0, 0⟩ (some ⟨9, 0, 0, 0⟩) 3
        none none ⟨[], []⟩ (fun _ => false) = .ok (db2, a)) ∧
    (∃ db2 a, add_appointment
        ⟨[], [], [⟨1, 100, "A", "B"⟩], [⟨2, 200, "C", "D"⟩], 7⟩
        ⟨.patient, none, some 2⟩ 1 ⟨23, 30, 22, 5⟩ none 3
        none none ⟨[], []⟩ (fun _ => false) = .ok (db2, a) ∧
      a.start_time = Tod.trunc ⟨23, 30, 22, 5⟩ ∧
      a.end_time = (Tod.addHour ⟨23, 30, 22, 5⟩).trunc) := by
  constructor
  · exact C3_start_end_default_amended.1 _ 2 1 ⟨10, 0, 0, 0⟩ ⟨9, 0, 0, 0⟩
      3 none none ⟨[], []⟩ (fun _ => false) ⟨1, 100, "A", "B"⟩
      ⟨2, 200, "C", "D"⟩ (by decide) rfl rfl rfl (by decide)
  · have h : add_appointment
        ⟨[], [], [⟨1, 100, "A", "B"⟩], [⟨2, 200, "C", "D"⟩], 7⟩
        ⟨.patient, none, some 2⟩ 1 ⟨23, 30, 22, 5⟩ none 3
        none none ⟨[], []⟩ (fun _ => false) =
        .ok (⟨[⟨7, 1, 2, 3, ⟨23, 30, 0, 0⟩, ⟨0, 30, 0, 0⟩, "pending",
                none, none, false, none⟩], [], [⟨1, 100, "A", "B"⟩],
              [⟨2, 200, "C", "D"⟩], 8⟩,
             ⟨7, 1, 2, 3, ⟨23, 30, 0, 0⟩, ⟨0, 30, 0, 0⟩, "pending", none,
              none, false, none⟩) := by rfl
    exact ⟨_, _, h, (C3_start_end_default_amended.2 _ _ _ _ _ _ _ _ _ _ _
      h).1, (C3_start_end_default_amended.2 _ _ _ _ _ _ _ _ _ _ _ h).2⟩

/-! ### C2 — availability gate -/

/-- When the conflict query is empty and the availability gate reports a
collision, `create_appointment` fails with that collision error. -/
theorem create_appointment_error_of_gate {db : DB} {doc pat : Nat}
    {st0 et0 : Tod} {d : Nat} {r n : Option String} {cs : ConnState}
    {fails : Nat → Bool} {e : CreateError}
    (h1 : findConflict db.appointments doc d st0.trunc et0.trunc = none)
    (h2 : availabilityGate db doc d st0.trunc et0.trunc = some e) :
    create_appointment db doc pat st0 et0 d r n cs fails = .error e := by
  unfold create_appointment
  simp only [h1, h2, Option.isSome_none, Bool.false_eq_true, if_false]

/-- A record with `is_available = true` never blocks: each guarded check
is vacuous. -/
theorem slotBlocks_true (os oe : Option Tod) (st et : Tod) :
    slotBlocks true os oe st et = false := by
  cases os <;> cases oe <;> rfl

/-- On whole-minute interval bounds the code's guarded check coincides
with the plain declared-interval overlap. -/
theorem slotBlocks_aligned {os oe : Option Tod} {st et : Tod}
    (hs : ∀ t, os = some t → t.trunc = t)
    (he : ∀ t, oe = some t → t.trunc = t) :
    slotBlocks false os oe st et = intervalOverlapB os oe st et := by
  cases os with
  | none => cases oe <;> rfl
  | some s =>
    cases oe with
    | none => rfl
    | some e =>
      simp [slotBlocks, intervalOverlapB, hs s rfl, he e rfl]

theorem alignedTimes_spec {av : DoctorAvailability}
    (h : av.alignedTimes = true) :
    (∀ t, av.start_time = some t → t.trunc = t) ∧
    (∀ t, av.end_time = some t → t.trunc = t) ∧
    (∀ t, av.start_time2 = some t → t.trunc = t) ∧
    (∀ t, av.end_time2 = some t → t.trunc = t) ∧
    (∀ t, av.start_time3 = some t → t.trunc = t) ∧
    (∀ t, av.end_time3 = some t → t.trunc = t) := by
  unfold DoctorAvailability.alignedTimes at h
  simp only [Bool.and_eq_true, beq_iff_eq] at h
  obtain ⟨⟨⟨⟨⟨h1, h2⟩, h3⟩, h4⟩, h5⟩, h6⟩ := h
  refine ⟨fun t ht => ?_, fun t ht => ?_, fun t ht => ?_, fun t ht => ?_,
          fun t ht => ?_, fun t ht => ?_⟩ <;> simp_all

/-- C2: with no competing appointment, an `is_available = false` record
blocks the request exactly when it overlaps one of the declared intervals
(first colliding slot named, primary before secondary before tertiary); a
missing record permits the booking with status "pending"; an
`is_available = true` record never blocks. -/
theorem C2_availability_blocking
    (db : DB) (doc pat : Nat) (st et : Tod) (d : Nat) (r n : Option String)
    (cs : ConnState) (fails : Nat → Bool) (dr : DoctorRec)
    (pt : PatientRec) (hst : st.aligned) (het : et.aligned)
    (hconf : findConflict db.appointments doc d st et = none)
    (hd : lookupDoctor db doc = some dr)
    (hp : lookupPatient db pat = some pt) :
    (∀ av, findAvailability db.availabilities doc d = some av →
       av.is_available = false → av.alignedTimes = true →
       (((∃ e, create_appointment db doc pat st et d r n cs fails
             = .error e ∧
           (e = .unavailPrimary ∨ e = .unavailSecondary ∨
            e = .unavailTertiary)) ↔
         declaredIntervalOverlap av st et = true) ∧
        (intervalOverlapB av.start_time av.end_time st et = true →
          create_appointment db doc pat st et d r n cs fails
            = .error .unavailPrimary) ∧
        (intervalOverlapB av.start_time av.end_time st et = false →
         intervalOverlapB av.start_time2 av.end_time2 st et = true →
          create_appointment db doc pat st et d r n cs fails
            = .error .unavailSecondary) ∧
        (intervalOverlapB av.start_time av.end_time st et = false →
         intervalOverlapB av.start_time2 av.end_time2 st et = false →
         intervalOverlapB av.start_time3 av.end_time3 st et = true →
          create_appointment db doc pat st et d r n cs fails
            = .error .unavailTertiary))) ∧
    (findAvailability db.availabilities doc d = none →
      ∃ db2 a l, create_appointment db doc pat st et d r n cs fails
          = .ok (db2, a, l) ∧ a.status = "pending") ∧
    (∀ av, findAvailability db.availabilities doc d = some av →
       av.is_available = true →
      ∃ db2 a l, create_appointment db doc pat st et d r n cs fails
          = .ok (db2, a, l) ∧ a.status = "pending") := by
  have hstr := Tod.trunc_of_aligned hst
  have hetr := Tod.trunc_of_aligned het
  have h1 : findConflict db.appointments doc d st.trunc et.trunc = none := by
    rw [hstr, hetr]; exact hconf
  refine ⟨?_, ?_, ?_⟩
  · intro av hav hfalse halign
    obtain ⟨a1, a2, a3, a4, a5, a6⟩ := alignedTimes_spec halign
    have hb1 : slotBlocks av.is_available av.start_time av.end_time st et
        = intervalOverlapB av.start_time av.end_time st et := by
      rw [hfalse]; exact slotBlocks_aligned a1 a2
    have hb2 : slotBlocks av.is_available av.start_time2 av.end_time2 st et
        = intervalOverlapB av.start_time2 av.end_time2 st et := by
      rw [hfalse]; exact slotBlocks_aligned a3 a4
    have hb3 : slotBlocks av.is_available av.start_time3 av.end_time3 st et
        = intervalOverlapB av.start_time3 av.end_time3 st et := by
      rw [hfalse]; exact slotBlocks_aligned a5 a6
    have hgate : availabilityGate db doc d st.trunc et.trunc =
        (if intervalOverlapB av.start_time av.end_time st et then
           some CreateError.unavailPrimary
         else if intervalOverlapB av.start_time2 av.end_time2 st et then
           some CreateError.unavailSecondary
         else if intervalOverlapB av.start_time3 av.end_time3 st et then
           some CreateError.unavailTertiary
         else none) := by
      rw [hstr, hetr]
      simp only [availabilityGate, availabilityError, hav, hb1, hb2, hb3]
    refine ⟨?_, ?_, ?_, ?_⟩
    · constructor
      · rintro ⟨e, he, -⟩
        by_contra hno
        have hall : declaredIntervalOverlap av st et = false := by
          cases hdo : declaredIntervalOverlap av st et
          · rfl
          · exact absurd hdo hno
        unfold declaredIntervalOverlap at hall
        simp only [Bool.or_eq_false_iff] at hall
        obtain ⟨⟨o1, o2⟩, o3⟩ := hall
        rw [o1, o2, o3] at hgate
        simp only [if_false, Bool.false_eq_true] at hgate
        obtain ⟨l, hok⟩ :=
          create_appointment_ok_of r n cs fails h1 hgate hd hp
        rw [he] at hok
        cases hok
      · intro hdo
        unfold declaredIntervalOverlap at hdo
        rcases Bool.or_eq_true_iff.mp hdo with h12 | o3
        · rcases Bool.or_eq_true_iff.mp h12 with o1 | o2
          · rw [o1] at hgate
            simp only [if_true] at hgate
            exact ⟨_, create_appointment_error_of_gate h1 hgate,
                   Or.inl rfl⟩
          · rw [o2] at hgate
            cases o1 : intervalOverlapB av.start_time av.end_time st et
            · rw [o1] at hgate
              simp only [if_true, if_false, Bool.false_eq_true] at hgate
              exact ⟨_, create_appointment_error_of_gate h1 hgate,
                     Or.inr (Or.inl rfl)⟩
            · rw [o1] at hgate
              simp only [if_true] at hgate
              exact ⟨_, create_appointment_error_of_gate h1 hgate,
                     Or.inl rfl⟩
        · rw [o3] at hgate
          cases o1 : intervalOverlapB av.start_time av.end_time st et
          · cases o2 : intervalOverlapB av.start_time2 av.end_time2 st et
            · rw [o1, o2] at hgate
              simp only [if_true, if_false, Bool.false_eq_true] at hgate
              exact ⟨_, create_appointment_error_of_gate h1 hgate,
                     Or.inr (Or.inr rfl)⟩
            · rw [o1, o2] at hgate
              simp only [if_true, if_false, Bool.false_eq_true] at hgate
              exact ⟨_, create_appointment_error_of_gate h1 hgate,
                     Or.inr (Or.inl rfl)⟩
          · rw [o1] at hgate
            simp only [if_true] at hgate
            exact ⟨_, create_appointment_error_of_gate h1 hgate,
                   Or.inl rfl⟩
    · intro hB1
      rw [hB1] at hgate
      simp only [if_true] at hgate
      exact create_appointment_error_of_gate h1 hgate
    · intro hB1 hB2
      rw [hB1, hB2] at hgate
      simp only [if_true, if_false, Bool.false_eq_true] at hgate
      exact create_appointment_error_of_gate h1 hgate
    · intro hB1 hB2 hB3
      rw [hB1, hB2, hB3] at hgate
      simp only [if_true, if_false, Bool.false_eq_true] at hgate
      exact create_appointment_error_of_gate h1 hgate
  · intro hnone
    have hgate : availabilityGate db doc d st.trunc et.trunc = none := by
      rw [hstr, hetr]
      simp only [availabilityGate, hnone]
    obtain ⟨l, hok⟩ := create_appointment_ok_of r n cs fails h1 hgate hd hp
    exact ⟨_, _, _, hok, rfl⟩
  · intro av hav htrue
    have hgate : availabilityGate db doc d st.trunc et.trunc = none := by
      rw [hstr, hetr]
      simp only [availabilityGate, availabilityError, hav, htrue,
        slotBlocks_true, if_false, Bool.false_eq_true]
    obtain ⟨l, hok⟩ := create_appointment_ok_of r n cs fails h1 hgate hd hp
    exact ⟨_, _, _, hok, rfl⟩

/-- C2 witness: scenario B (unavailability 09:00–12:00 blocks a
10:00–10:30 request naming the primary slot) and scenario A (no record:
the booking succeeds with status "pending"). -/
theorem C2_witness :
    create_appointment
        ⟨[], [⟨1, 4, false, some ⟨9, 0, 0, 0⟩, some ⟨12, 0, 0, 0⟩, none,
               none, none, none⟩], [⟨1, 100, "A", "B"⟩],
         [⟨2, 200, "C", "D"⟩], 7⟩
        1 2 ⟨10, 0, 0, 0⟩ ⟨10, 30, 0, 0⟩ 4 none none ⟨[], []⟩
        (fun _ => false) = .error .unavailPrimary ∧
    (∃ db2 a l, create_appointment
        ⟨[], [], [⟨1, 100, "A", "B"⟩], [⟨2, 200, "C", "D"⟩], 7⟩
        1 2 ⟨10, 0, 0, 0⟩ ⟨11, 0, 0, 0⟩ 4 none none ⟨[], []⟩
        (fun _ => false) = .ok (db2, a, l) ∧ a.status = "pending") := by
  constructor
  · exact ((C2_availability_blocking
      ⟨[], [⟨1, 4, false, some ⟨9, 0, 0, 0⟩, some ⟨12, 0, 0, 0⟩, none,
             none, none, none⟩], [⟨1, 100, "A", "B"⟩],
       [⟨2, 200, "C", "D"⟩], 7⟩
      1 2 ⟨10, 0, 0, 0⟩ ⟨10, 30, 0, 0⟩ 4 none none ⟨[], []⟩
      (fun _ => false) ⟨1, 100, "A", "B"⟩ ⟨2, 200, "C", "D"⟩
      (by decide) (by decide) rfl rfl rfl).1
      ⟨1, 4, false, some ⟨9, 0, 0, 0⟩, some ⟨12, 0, 0, 0⟩, none, none,
       none, none⟩ rfl rfl (by decide)).2.1 (by decide)
  · exact (C2_availability_blocking
      ⟨[], [], [⟨1, 100, "A", "B"⟩], [⟨2, 200, "C", "D"⟩], 7⟩
      1 2 ⟨10, 0, 0, 0⟩ ⟨11, 0, 0, 0⟩ 4 none none ⟨[], []⟩
      (fun _ => false) ⟨1, 100, "A", "B"⟩ ⟨2, 200, "C", "D"⟩
      (by decide) (by decide) rfl rfl rfl).2.1 rfl

/-- C2 counterexample: an `is_available = false` record with sub-minute
declared primary bounds 08:59:30–09:00:30 overlaps the 09:00–10:00
request under the half-open test, yet `create_appointment` compares the
bounds truncated to whole minutes ([08:59, 09:00)) and permits the
booking — refuting "fails with a conflict error ... exactly when the
requested interval overlaps one of the record's declared intervals". -/
theorem C2_counterexample :
    declaredIntervalOverlap
      ⟨1, 4, false, some ⟨8, 59, 30, 0⟩, some ⟨9, 0, 30, 0⟩, none, none,
       none, none⟩ ⟨9, 0, 0, 0⟩ ⟨10, 0, 0, 0⟩ = true ∧
    (match create_appointment
        ⟨[], [⟨1, 4, false, some ⟨8, 59, 30, 0⟩, some ⟨9, 0, 30, 0⟩, none,
               none, none, none⟩], [⟨1, 100, "A", "B"⟩],
         [⟨2, 200, "C", "D"⟩], 7⟩
        1 2 ⟨9, 0, 0, 0⟩ ⟨10, 0, 0, 0⟩ 4 none none ⟨[], []⟩
        (fun _ => false) with
     | .ok (_, a, _) => a.status == "pending"
     | .error _ => false) = true := by
  exact ⟨by decide, by decide⟩

/-! ### C1 — exclusion of double booking -/

theorem find_append_of_none {α} {p : α → Bool} {l1 : List α}
    (l2 : List α) (h : l1.find? p = none) :
    (l1 ++ l2).find? p = l2.find? p := by
  induction l1 with
  | nil => rfl
  | cons x xs ih =>
    rw [List.find?_cons] at h
    rcases hx : p x with _ | _
    · rw [hx] at h
      rw [List.cons_append, List.find?_cons, hx]
      exact ih h
    · rw [hx] at h
      cases h

/-- When the conflict query finds a row, `create_appointment` fails with
the overlap error. -/
theorem create_appointment_conflict_of {db : DB} {doc pat : Nat}
    {st0 et0 : Tod} {d : Nat} {r n : Option String} {cs : ConnState}
    {fails : Nat → Bool}
    (h : (findConflict db.appointments doc d st0.trunc et0.trunc).isSome
           = true) :
    create_appointment db doc pat st0 et0 d r n cs fails
      = .error .conflict := by
  unfold create_appointment
  simp only [h, if_true]

/-- C1: starting from a state with no appointment for the doctor and
date, once a booking for [st, et) succeeds, a second request for the same
doctor and date fails with the overlap error whenever it intersects
[st, et) under the half-open test, and succeeds whenever it does not
intersect it and collides with no unavailability interval. -/
theorem C1_no_double_booking
    (db db2 : DB) (doc pat pat2 d : Nat) (st et st2 et2 : Tod)
    (r n r2 n2 : Option String) (cs cs2 : ConnState)
    (fails fails2 : Nat → Bool) (appt : Appointment) (l : List Nat)
    (dr : DoctorRec) (pt2 : PatientRec)
    (hempty : noApptsFor db.appointments doc d = true)
    (hst : st.aligned) (het : et.aligned)
    (hst2 : st2.aligned) (het2 : et2.aligned)
    (_hlt : st.lt et = true)
    (hd : lookupDoctor db doc = some dr)
    (hp2 : lookupPatient db pat2 = some pt2)
    (hsucc : create_appointment db doc pat st et d r n cs fails
               = .ok (db2, appt, l)) :
    (overlaps st2 et2 st et = true →
      create_appointment db2 doc pat2 st2 et2 d r2 n2 cs2 fails2
        = .error .conflict) ∧
    (overlaps st2 et2 st et = false →
     availabilityGate db doc d st2 et2 = none →
      ∃ db3 a2 l2, create_appointment db2 doc pat2 st2 et2 d r2 n2 cs2
          fails2 = .ok (db3, a2, l2)) := by
  have hstr := Tod.trunc_of_aligned hst
  have hetr := Tod.trunc_of_aligned het
  have hst2r := Tod.trunc_of_aligned hst2
  have het2r := Tod.trunc_of_aligned het2
  obtain ⟨-, -, ha, hapts, hava, hdocs, hpats⟩ :=
    create_appointment_ok_inv hsucc
  have hbase : findConflict db.appointments doc d st2.trunc et2.trunc
      = none := findConflict_of_noApptsFor hempty _ _
  have happend : findConflict db2.appointments doc d st2.trunc et2.trunc
      = findConflict [appt] doc d st2.trunc et2.trunc := by
    rw [hapts]
    exact find_append_of_none _ hbase
  constructor
  · intro hov
    have hov2 := hov
    simp only [overlaps, Bool.and_eq_true] at hov2
    obtain ⟨hlt1, hlt2⟩ := hov2
    have hfound : findConflict db2.appointments doc d st2.trunc et2.trunc
        = some appt := by
      rw [happend, ha]
      simp only [findConflict, List.find?_cons, hstr, hetr, hst2r, het2r]
      simp [hlt1, hlt2]
    apply create_appointment_conflict_of
    rw [hfound]
    rfl
  · intro hov hgate
    have hnone : findConflict db2.appointments doc d st2.trunc et2.trunc
        = none := by
      rw [happend, ha]
      simp only [findConflict, List.find?_cons, hstr, hetr, hst2r, het2r]
      simp only [overlaps, Bool.and_eq_false_iff] at hov
      rcases hov with hf | hf <;> simp [hf]
    have hgate2 : availabilityGate db2 doc d st2.trunc et2.trunc = none := by
      unfold availabilityGate
      rw [hava]
      rw [hst2r, het2r]
      unfold availabilityGate at hgate
      exact hgate
    have hd2 : lookupDoctor db2 doc = some dr := by
      unfold lookupDoctor
      rw [hdocs]
      exact hd
    have hp22 : lookupPatient db2 pat2 = some pt2 := by
      unfold lookupPatient
      rw [hpats]
      exact hp2
    obtain ⟨l2, hok⟩ :=
      create_appointment_ok_of r2 n2 cs2 fails2 hnone hgate2 hd2 hp22
    exact ⟨_, _, _, hok⟩

/-- C1 witness: after booking 09:00–10:00, a 09:30–10:30 request fails
with the overlap error and a 10:00–11:00 request succeeds. -/
theorem C1_witness :
    create_appointment
        ⟨[⟨7, 1, 2, 3, ⟨9, 0, 0, 0⟩, ⟨10, 0, 0, 0⟩, "pending", none, none,
           false, none⟩], [], [⟨1, 100, "A", "B"⟩], [⟨2, 200, "C", "D"⟩],
         8⟩ 1 2 ⟨9, 30, 0, 0⟩ ⟨10, 30, 0, 0⟩ 3 none none ⟨[], []⟩
        (fun _ => false) = .error .conflict ∧
    ∃ db3 a2 l2, create_appointment
        ⟨[⟨7, 1, 2, 3, ⟨9, 0, 0, 0⟩, ⟨10, 0, 0, 0⟩, "pending", none, none,
           false, none⟩], [], [⟨1, 100, "A", "B"⟩], [⟨2, 200, "C", "D"⟩],
         8⟩ 1 2 ⟨10, 0, 0, 0⟩ ⟨11, 0, 0, 0⟩ 3 none none ⟨[], []⟩
        (fun _ => false) = .ok (db3, a2, l2) := by
  have hsucc : create_appointment
      ⟨[], [], [⟨1, 100, "A", "B"⟩], [⟨2, 200, "C", "D"⟩], 7⟩
      1 2 ⟨9, 0, 0, 0⟩ ⟨10, 0, 0, 0⟩ 3 none none ⟨[], []⟩
      (fun _ => false) =
      .ok (⟨[⟨7, 1, 2, 3, ⟨9, 0, 0, 0⟩, ⟨10, 0, 0, 0⟩, "pending", none,
              none, false, none⟩], [], [⟨1, 100, "A", "B"⟩],
            [⟨2, 200, "C", "D"⟩], 8⟩,
           ⟨7, 1, 2, 3, ⟨9, 0, 0, 0⟩, ⟨10, 0, 0, 0⟩, "pending", none,
            none, false, none⟩, []) := by rfl
  constructor
  · exact (C1_no_double_booking ⟨[], [], [⟨1, 100, "A", "B"⟩], [⟨2, 200, "C", "D"⟩], 7⟩
      (⟨[⟨7, 1, 2, 3, ⟨9, 0, 0, 0⟩, ⟨10, 0, 0, 0⟩, "pending", none,
              none, false, none⟩], [], [⟨1, 100, "A", "B"⟩],
            [⟨2, 200, "C", "D"⟩], 8⟩) 1 2 2 3 ⟨9, 0, 0, 0⟩ ⟨10, 0, 0, 0⟩
      ⟨9, 30, 0, 0⟩ ⟨10, 30, 0, 0⟩ none none none none ⟨[], []⟩ ⟨[], []⟩
      (fun _ => false) (fun _ => false)
      ⟨7, 1, 2, 3, ⟨9, 0, 0, 0⟩, ⟨10, 0, 0, 0⟩, "pending", none, none,
       false, none⟩ [] ⟨1, 100, "A", "B"⟩
      ⟨2, 200, "C", "D"⟩ (by decide) (by decide) (by decide) (by decide)
      (by decide) (by decide) rfl rfl hsucc).1 (by decide)
  · exact (C1_no_double_booking ⟨[], [], [⟨1, 100, "A", "B"⟩], [⟨2, 200, "C", "D"⟩], 7⟩
      (⟨[⟨7, 1, 2, 3, ⟨9, 0, 0, 0⟩, ⟨10, 0, 0, 0⟩, "pending", none,
              none, false, none⟩], [], [⟨1, 100, "A", "B"⟩],
            [⟨2, 200, "C", "D"⟩], 8⟩) 1 2 2 3 ⟨9, 0, 0, 0⟩ ⟨10, 0, 0, 0⟩
      ⟨10, 0, 0, 0⟩ ⟨11, 0, 0, 0⟩ none none none none ⟨[], []⟩ ⟨[], []⟩
      (fun _ => false) (fun _ => false)
      ⟨7, 1, 2, 3, ⟨9, 0, 0, 0⟩, ⟨10, 0, 0, 0⟩, "pending", none, none,
       false, none⟩ [] ⟨1, 100, "A", "B"⟩
      ⟨2, 200, "C", "D"⟩ (by decide) (by decide) (by decide) (by decide)
      (by decide) (by decide) rfl rfl hsucc).2 (by decide) rfl

/-! ### C6 — notification failures never break the business operation -/

theorem mem_foldr_trySend {fails : Nat → Bool} {c : Nat}
    {conns : List Nat} (hc : c ∈ conns) (hf : fails c = false) :
    c ∈ conns.foldr (fun x acc =>
      match trySendText fails x with
      | .ok _ => x :: acc
      | .error _ => acc) [] := by
  induction conns with
  | nil => cases hc
  | cons x xs ih =>
    simp only [List.foldr_cons]
    rcases List.mem_cons.mp hc with hcx | hmem
    · subst hcx
      unfold trySendText
      rw [hf]
      exact List.mem_cons_self _ _
    · cases htx : trySendText fails x with
      | error e => exact ih hmem
      | ok u => exact List.mem_cons_of_mem _ (ih hmem)

/-- A non-failing connection of a user always receives a personal
message, whatever other connections do. -/
theorem mem_send_personal_message {cs : ConnState} {fails : Nat → Bool}
    {uid : String} {conns : List Nat} {c : Nat}
    (h : userConns cs uid = some conns) (hc : c ∈ conns)
    (hf : fails c = false) :
    c ∈ send_personal_message cs fails uid := by
  unfold send_personal_message
  rw [h]
  exact mem_foldr_trySend hc hf

/-- C6: the fan-out returns normally even when the whole transport is
down; a non-failing connection of an affected registered user always
receives the event regardless of other failures; and neither booking nor
the doctor status update changes its observable outcome with the failure
pattern. -/
theorem C6_notification_isolation :
    (∀ (cs : ConnState) (affected : List String),
       ∃ l, send_appointment_notification cs (fun _ => true) affected
              = .ok l) ∧
    (∀ (cs : ConnState) (fails : Nat → Bool) (affected : List String)
       (uid : String) (conns : List Nat) (c : Nat) (l : List Nat),
       uid ∈ affected → userConns cs uid = some conns → c ∈ conns →
       fails c = false →
       send_appointment_notification cs fails affected = .ok l →
       c ∈ l) ∧
    (∀ (db : DB) (doc pat : Nat) (st0 et0 : Tod) (d : Nat)
       (r n : Option String) (cs : ConnState) (f1 f2 : Nat → Bool),
       createOutcome (create_appointment db doc pat st0 et0 d r n cs f1)
         = createOutcome
             (create_appointment db doc pat st0 et0 d r n cs f2)) ∧
    (∀ (db : DB) (id : Nat) (ns : String) (did ts : Nat) (cs : ConnState)
       (f1 f2 : Nat → Bool),
       updateOutcome
           (update_appointment_status_service db id ns did ts cs f1)
         = updateOutcome
             (update_appointment_status_service db id ns did ts cs f2)) := by
  refine ⟨fun cs affected => ⟨_, rfl⟩, ?_, ?_, ?_⟩
  · intro cs fails affected uid conns c l huid hconns hc hf hsend
    unfold send_appointment_notification at hsend
    cases Except.ok.inj hsend
    apply List.mem_append_left
    apply List.mem_flatten.mpr
    refine ⟨notifyUser cs fails uid, List.mem_map_of_mem _ huid, ?_⟩
    unfold notifyUser
    rw [hconns]
    simp only [Option.isSome_some, if_true]
    exact mem_send_personal_message hconns hc hf
  · intro db doc pat st0 et0 d r n cs f1 f2
    unfold create_appointment
    dsimp only
    cases hc : (findConflict db.appointments doc d st0.trunc
        et0.trunc).isSome <;> try rfl
    cases hg : availabilityGate db doc d st0.trunc et0.trunc <;> try rfl
    cases hdq : lookupDoctor db doc <;> try rfl
    cases hpq : lookupPatient db pat <;> try rfl
  · intro db id ns did ts cs f1 f2
    unfold update_appointment_status_service
    dsimp only
    cases hfq : db.appointments.find?
        (fun a => a.id == id && a.doctor_id == did) <;> try rfl
    rename_i a
    by_cases hmem : ns ∈ allowed_statuses
    · simp only [if_pos hmem]
      cases hdq : lookupDoctor db did <;> try rfl
      cases hpq : lookupPatient db a.patient_id <;> try rfl
    · simp only [if_neg hmem]

/-- C6 witness: with user "7" holding connections 1 and 2 and the
transport failing on connection 1, the fan-out still returns normally and
connection 2 receives the event. -/
theorem C6_witness :
    ∃ l, send_appointment_notification ⟨[("7", [1, 2])], []⟩
        (fun c => c == 1) ["7"] = .ok l ∧ 2 ∈ l := by
  refine ⟨[2], rfl, ?_⟩
  exact C6_notification_isolation.2.1 ⟨[("7", [1, 2])], []⟩
    (fun c => c == 1) ["7"] "7" [1, 2] 2 [2] (by decide) rfl (by decide)
    rfl rfl

/-! ### C7 / C8 — background reconciliation -/

/-- The state change of the updater's `update_appointment_status` happens
on every path, whether or not the notification is skipped. -/
theorem auto_update_fst (db : DB) (ts : Nat) (a : Appointment)
    (ns r : String) :
    (auto_update_appointment_status db ts a ns r).1 =
      { a with
        status := ns, is_updated := true, update_date := some ts,
        notes := some (appendNote a.notes r) } := by
  unfold auto_update_appointment_status
  cases lookupDoctor db a.doctor_id <;>
    cases lookupPatient db a.patient_id <;> rfl

/-- The appointment list produced by one reconciliation pass, written as
an elementwise map. -/
theorem reconcilePass_fst (db : DB) (today : Nat) (now : Tod) (ts : Nat)
    (s ns r : String) (apts : List Appointment) :
    (reconcilePass db today now ts s ns r apts).1 =
      apts.map (fun a => if isPastWithStatus s today now a then
        (auto_update_appointment_status db ts a ns r).1 else a) := by
  unfold reconcilePass
  dsimp only
  rw [List.map_map]
  apply List.map_congr_left
  intro a ha
  cases hc : isPastWithStatus s today now a <;> simp [hc]

/-- A reconciliation pass over a list with no matching appointment is the
identity and emits nothing. -/
theorem reconcilePass_skip {db : DB} {today : Nat} {now : Tod} {ts : Nat}
    {s ns r : String} {apts : List Appointment}
    (h : ∀ a ∈ apts, isPastWithStatus s today now a = false) :
    reconcilePass db today now ts s ns r apts = (apts, []) := by
  have hfst : (reconcilePass db today now ts s ns r apts).1 = apts := by
    rw [reconcilePass_fst]
    conv_rhs => rw [← List.map_id apts]
    apply List.map_congr_left
    intro a ha
    simp [h a ha]
  have hsnd : (reconcilePass db today now ts s ns r apts).2 = [] := by
    unfold reconcilePass
    dsimp only
    apply List.filterMap_eq_nil_iff.mpr
    intro x hx
    obtain ⟨a, ha, rfl⟩ := List.mem_map.mp hx
    simp [h a ha]
  exact Prod.ext_iff.mpr ⟨hfst, hsnd⟩

/-- C7: running the reconciliation twice with the same clock leaves the
state of the first run unchanged and emits no second-run notification. -/
theorem C7_reconciliation_idempotent (db : DB) (today : Nat) (now : Tod)
    (ts ts2 : Nat) :
    process_past_appointments
        (process_past_appointments db today now ts).1 today now ts2
      = ((process_past_appointments db today now ts).1, []) := by
  have key : ∀ a ∈ (reconcilePass db today now ts "pending"
      "undetermined_pending" pendingReason
      (reconcilePass db today now ts "confirmed" "undetermined_confirmed"
        confirmedReason db.appointments).1).1,
      isPastWithStatus "confirmed" today now a = false ∧
      isPastWithStatus "pending" today now a = false := by
    intro a ha
    rw [reconcilePass_fst] at ha
    obtain ⟨b, hb, rfl⟩ := List.mem_map.mp ha
    rw [reconcilePass_fst] at hb
    obtain ⟨c, -, rfl⟩ := List.mem_map.mp hb
    cases h1 : isPastWithStatus "confirmed" today now c with
    | true =>
      have hcond : isPastWithStatus "pending" today now
          (auto_update_appointment_status db ts c "undetermined_confirmed"
            confirmedReason).1 = false := by
        rw [auto_update_fst]
        simp [isPastWithStatus]
      simp only [h1, if_true, hcond, Bool.false_eq_true, if_false]
      constructor <;> simp [auto_update_fst, isPastWithStatus]
    | false =>
      simp only [h1, Bool.false_eq_true, if_false]
      cases h2 : isPastWithStatus "pending" today now c with
      | true =>
        simp only [h2, if_true]
        constructor <;> simp [auto_update_fst, isPastWithStatus]
      | false =>
        simp only [h2, Bool.false_eq_true, if_false]
        exact ⟨h1, trivial⟩
  unfold process_past_appointments
  dsimp only
  rw [reconcilePass_skip (fun a ha => (key a ha).1)]
  dsimp only
  rw [reconcilePass_skip (fun a ha => (key a ha).2)]
  rfl

/-- C8: an appointment whose doctor or patient link is missing still gets
the full status transition (status, is_updated, update_date, reason
appended to notes newline-separated preserving prior notes) while its
notification is skipped; every notification a reconciliation pass emits
comes from a selected appointment with both links present. -/
theorem C8_missing_link_transition :
    (∀ (db : DB) (ts : Nat) (a : Appointment) (ns r : String),
       lookupDoctor db a.doctor_id = none ∨
         lookupPatient db a.patient_id = none →
       auto_update_appointment_status db ts a ns r =
         ({ a with
            status := ns, is_updated := true, update_date := some ts,
            notes := some (appendNote a.notes r) }, none)) ∧
    (∀ (notes : Option String) (prior r : String),
       notes = some prior → prior.isEmpty = false →
       appendNote notes r = prior ++ "\n" ++ r) ∧
    (∀ (db : DB) (today : Nat) (now : Tod) (ts : Nat)
       (s ns r : String) (apts : List Appointment) (ev : AutoEvent),
       ev ∈ (reconcilePass db today now ts s ns r apts).2 →
       ∃ b ∈ apts, ev.appointment_id = b.id ∧
         (lookupDoctor db b.doctor_id).isSome = true ∧
         (lookupPatient db b.patient_id).isSome = true ∧
         isPastWithStatus s today now b = true) := by
  refine ⟨?_, ?_, ?_⟩
  · intro db ts a ns r hmiss
    unfold auto_update_appointment_status
    rcases hmiss with hm | hm
    · rw [hm]
    · cases hdq : lookupDoctor db a.doctor_id <;> rw [hm]
  · intro notes prior r hp hne
    subst hp
    simp [appendNote, hne]
  · intro db today now ts s ns r apts ev hev
    unfold reconcilePass at hev
    dsimp only at hev
    obtain ⟨x, hx, hsnd⟩ := List.mem_filterMap.mp hev
    obtain ⟨b, hb, rfl⟩ := List.mem_map.mp hx
    refine ⟨b, hb, ?_⟩
    cases hsel : isPastWithStatus s today now b with
    | false =>
      rw [hsel] at hsnd
      simp at hsnd
    | true =>
      rw [hsel] at hsnd
      simp only [if_true] at hsnd
      unfold auto_update_appointment_status at hsnd
      cases hdq : lookupDoctor db b.doctor_id with
      | none =>
        rw [hdq] at hsnd
        simp at hsnd
      | some dr =>
        rw [hdq] at hsnd
        cases hpq : lookupPatient db b.patient_id with
        | none =>
          rw [hpq] at hsnd
          simp at hsnd
        | some pt =>
          rw [hpq] at hsnd
          simp only [Prod.snd] at hsnd
          cases Option.some.inj hsnd
          exact ⟨rfl, rfl, rfl, rfl⟩

/-- C8 witness: a past pending appointment with no linked patient profile
is fully transitioned and emits no notification. -/
theorem C8_witness :
    auto_update_appointment_status
        ⟨[], [], [⟨1, 100, "A", "B"⟩], [], 5⟩ 42
        ⟨3, 1, 2, 4, ⟨9, 0, 0, 0⟩, ⟨10, 0, 0, 0⟩, "pending", none,
         some "seen before", false, none⟩
        "undetermined_pending" pendingReason =
      (⟨3, 1, 2, 4, ⟨9, 0, 0, 0⟩, ⟨10, 0, 0, 0⟩, "undetermined_pending",
        none, some ("seen before" ++ "\n" ++ pendingReason), true,
        some 42⟩, none) ∧
    appendNote (some "seen before") pendingReason
      = "seen before" ++ "\n" ++ pendingReason := by
  constructor
  · have h := C8_missing_link_transition.1
      ⟨[], [], [⟨1, 100, "A", "B"⟩], [], 5⟩ 42
      ⟨3, 1, 2, 4, ⟨9, 0, 0, 0⟩, ⟨10, 0, 0, 0⟩, "pending", none,
       some "seen before", false, none⟩
      "undetermined_pending" pendingReason (Or.inr rfl)
    rw [h]
    have h2 := C8_missing_link_transition.2.1 (some "seen before")
      "seen before" pendingReason rfl (by decide)
    rw [h2]
  · exact C8_missing_link_transition.2.1 (some "seen before")
      "seen before" pendingReason rfl (by decide)
